import Mathlib

/-!
Verification of the Streamlit front-end of the Automated Time-Table Scheduler
(`app.py`) against its natural-language specification, together with a model
of the timetable-generation engine the specification describes.

The front-end is shallowly embedded: each Streamlit button handler becomes a
pure Lean function from the page's form state and a backend responder to the
ordered trace of effects (HTTP requests and UI events) the handler performs.
JSON payloads are modelled by an explicit `JsonVal` type so that statements
about exact field names can be made.
-/

set_option maxHeartbeats 1000000

/-- JSON values, as assembled by the front-end's payload dictionaries. -/
inductive JsonVal where
  | str (s : String)
  | nat (n : Nat)
  | bool (b : Bool)
  | arr (xs : List JsonVal)
  | obj (fields : List (String × JsonVal))

/-- The keys of a JSON object, in source order; `[]` for non-objects. -/
def JsonVal.keys : JsonVal → List String
  | .obj fs => fs.map Prod.fst
  | _ => []

/-- Field access `j[k]` on a JSON object. -/
def JsonVal.lookup (j : JsonVal) (k : String) : Option JsonVal :=
  match j with
  | .obj fs => List.lookup k fs
  | _ => none

/-- An HTTP response as the front-end consumes it: `status_code`, `text`
(decoded body) and `content` (raw body bytes, modelled as a string). -/
structure HttpResponse where
  status_code : Nat
  text : String
  content : String
deriving DecidableEq

/-- UI events the front-end can emit (`st.error`, `st.success`, `st.toast`,
`st.balloons`, `st.write` debug output, `st.download_button`, `st.metric`). -/
inductive UiEvent where
  | error (msg : String)
  | success (msg : String)
  | toast (msg : String)
  | balloons
  | info (msg : String)
  | write (tag : String) (payload : JsonVal)
  | downloadButton (filename : String) (content : String)
  | metric (label : String) (value : Nat)

/-- One step of a handler's effect trace: an HTTP GET, an HTTP POST with a
JSON payload, or a UI event. -/
inductive Step where
  | get (endpoint : String)
  | post (endpoint : String) (payload : JsonVal)
  | ui (e : UiEvent)

/-- The POST requests of a trace, in order. -/
def postsOf : List Step → List (String × JsonVal)
  | [] => []
  | .post e p :: rest => (e, p) :: postsOf rest
  | _ :: rest => postsOf rest

/-- The GET requests of a trace, in order. -/
def getsOf : List Step → List String
  | [] => []
  | .get e :: rest => e :: getsOf rest
  | _ :: rest => getsOf rest

/-- The error messages shown in a trace, in order. -/
def errorsOf : List Step → List String
  | [] => []
  | .ui (.error m) :: rest => m :: errorsOf rest
  | _ :: rest => errorsOf rest

/-- The success-indicating UI events of a trace (`st.success`, `st.balloons`,
`st.toast`), kept abstractly as the messages of `success`/`toast` plus a
marker string for `balloons`. -/
def successSignalsOf : List Step → List String
  | [] => []
  | .ui (.success m) :: rest => m :: successSignalsOf rest
  | .ui (.toast m) :: rest => m :: successSignalsOf rest
  | .ui .balloons :: rest => "balloons" :: successSignalsOf rest
  | _ :: rest => successSignalsOf rest

/-- The file downloads offered in a trace, as (filename, content) pairs. -/
def downloadsOf : List Step → List (String × String)
  | [] => []
  | .ui (.downloadButton f c) :: rest => (f, c) :: downloadsOf rest
  | _ :: rest => downloadsOf rest

/-- `st.multiselect options`: the widget can only return the subsequence of
`options` the user has selected, here represented by a selection predicate. -/
def multiselect (options : List String) (chosen : String → Bool) : List String :=
  options.filter chosen

/-- `st.number_input` with `min_value`/`max_value`: the widget clamps its
value into the closed interval. -/
def numberInput (minValue maxValue v : Nat) : Nat :=
  max minValue (min maxValue v)

/-- ASCII lowercasing of one character, as Python's `str.lower` does on the
ASCII strings this front-end lowercases. -/
def lowerChar (c : Char) : Char :=
  if 65 ≤ c.toNat ∧ c.toNat ≤ 90 then Char.ofNat (c.toNat + 32) else c

/-- Python's `format.lower()` on the ASCII format names used here. -/
def pyLower (s : String) : String :=
  ⟨s.data.map lowerChar⟩

/-- `check_password` from `app.py`: compares against the hardcoded
credentials `admin` / `timetable123`. -/
def check_password (username password : String) : Bool :=
  username == "admin" && password == "timetable123"

/-- The `Login` button handler: on correct credentials it sets
`st.session_state.logged_in := true` and shows a success message; otherwise
it leaves the session state unchanged and shows an error. Returns the new
`logged_in` state and the UI events. -/
def loginClick (logged_in : Bool) (username password : String) :
    Bool × List UiEvent :=
  if check_password username password then
    (true, [.success "Login successful!"])
  else
    (logged_in, [.error "Invalid username or password"])

/-- The `Logout` button handler: clears `st.session_state.logged_in`. -/
def logoutClick (_logged_in : Bool) : Bool :=
  false

/-- A subject record as stored by the backend and round-tripped by the
front-end (the fields of the Add Subject payload in `app.py`). -/
structure Subject where
  name : String
  code : String
  faculty : String
  alternateFaculty : String
  hoursPerWeek : Nat
  labRequired : Bool
  department : String
  available : Bool
deriving DecidableEq

/-- The JSON object for a subject, with the exact field names the front-end
uses in `POST /api/subjects` and reads from `GET /api/subjects`. -/
def subjectJson (s : Subject) : JsonVal :=
  .obj [("name", .str s.name), ("code", .str s.code),
        ("faculty", .str s.faculty),
        ("alternateFaculty", .str s.alternateFaculty),
        ("hoursPerWeek", .nat s.hoursPerWeek),
        ("labRequired", .bool s.labRequired),
        ("department", .str s.department),
        ("available", .bool s.available)]

/-- The multiselect label `f"{subject['name']} ({subject['code']})"` used on
the Timetable Management page. -/
def subjectLabel (s : Subject) : String :=
  s.name ++ " (" ++ s.code ++ ")"

/-- The payload dictionary built by the Generate Timetable handler. -/
def generatePayload (department semester : String) (details : List Subject)
    (maxSessions desiredFree : Nat) : JsonVal :=
  .obj [("department", .str department), ("semester", .str semester),
        ("subjects", .arr (details.map subjectJson)),
        ("maxSessionsPerDay", .nat maxSessions),
        ("desiredFreePeriods", .nat desiredFree)]

/-- `show_notification` from `app.py`: balloons on success type, then a
toast with the message. -/
def show_notification (kind msg : String) : List UiEvent :=
  (if kind == "success" then [UiEvent.balloons] else []) ++ [UiEvent.toast msg]

/-- The `Generate Timetable` button handler (Timetable Management page).
`subjects` is the parsed 200-response of `GET /api/subjects`; `sel` is the
multiselect state; `mRaw`/`fRaw` the raw number-input states clamped by the
widgets to [1,10] and [0,20]; `send_post` the backend. Mirrors the source:
an empty selection or an empty department/semester shows a local error and
sends nothing; otherwise the payload is posted, echoed with `st.write`, and
the response status decides between a success notification and an error
showing the response body. -/
def generateTimetableClick (subjects : List Subject) (sel : String → Bool)
    (department semester : String) (mRaw fRaw : Nat)
    (send_post : String → JsonVal → HttpResponse) : List Step :=
  let selected := multiselect (subjects.map subjectLabel) sel
  let max_sessions_per_day := numberInput 1 10 mRaw
  let desired_free_periods := numberInput 0 20 fRaw
  if selected.isEmpty then
    [.ui (.error "Please select at least one subject.")]
  else if department == "" || semester == "" then
    [.ui (.error "Department and Semester are required.")]
  else
    let details := subjects.filter (fun s => selected.contains (subjectLabel s))
    let payload := generatePayload department semester details
        max_sessions_per_day desired_free_periods
    let resp := send_post "/api/timetable/generate" payload
    [.post "/api/timetable/generate" payload,
     .ui (.write "Payload:" payload)] ++
    (if resp.status_code == 200 then
      (show_notification "success" "Timetable generated successfully!").map Step.ui
     else
      [.ui (.error ("Failed to generate timetable: " ++ resp.text))])

/-- The `Download Timetable` button handler: GETs
`/api/timetable/download/{format.lower()}` and on a 200 offers the raw
response content as `timetable.{format.lower()}`, otherwise shows a fixed
error message. -/
def downloadTimetableClick (format : String)
    (send_get : String → HttpResponse) : List Step :=
  let endpoint := "/api/timetable/download/" ++ pyLower format
  let resp := send_get endpoint
  [.get endpoint] ++
  (if resp.status_code == 200 then
    [.ui (.downloadButton ("timetable." ++ pyLower format) resp.content)]
   else
    [.ui (.error "Failed to download timetable.")])

/-- The payload dictionary built by the Add Subject handler. -/
def addSubjectPayload (name code faculty alternate_faculty : String)
    (hours_per_week : Nat) (lab_required : Bool) (department : String)
    (available : Bool) : JsonVal :=
  .obj [("name", .str name), ("code", .str code),
        ("faculty", .str faculty),
        ("alternateFaculty", .str alternate_faculty),
        ("hoursPerWeek", .nat hours_per_week),
        ("labRequired", .bool lab_required),
        ("department", .str department),
        ("available", .bool available)]

/-- The `Add Subject` button handler (Subject Management page). `hoursRaw`
is the raw number-input state, clamped by the widget to [1,40]. Always posts
the payload; on 200 shows a success message, otherwise an error with the
response body. -/
def addSubjectClick (name code faculty alternate_faculty : String)
    (hoursRaw : Nat) (lab_required : Bool) (department : String)
    (available : Bool) (send_post : String → JsonVal → HttpResponse) :
    List Step :=
  let hours_per_week := numberInput 1 40 hoursRaw
  let payload := addSubjectPayload name code faculty alternate_faculty
      hours_per_week lab_required department available
  let resp := send_post "/api/subjects" payload
  [.post "/api/subjects" payload] ++
  (if resp.status_code == 200 then
    [.ui (.success "Subject added successfully!")]
   else
    [.ui (.error ("Failed to add subject: " ++ resp.text))])

/-- The weekday options of the Preferred Days multiselect. -/
def weekdayOptions : List String :=
  ["Monday", "Tuesday", "Wednesday", "Thursday", "Friday"]

/-- The period options of the Preferred Times multiselect. -/
def periodOptions : List String :=
  ["8:45am - 9:30am", "9:30am - 10:15am", "10:15am - 11:00am",
   "11:30am - 12:15pm", "12:15pm - 1:00pm"]

/-- The payload dictionary built by the Add Preference handler. -/
def preferencePayload (faculty : String) (days times : List String) : JsonVal :=
  .obj [("faculty", .str faculty),
        ("preferredDays", .arr (days.map JsonVal.str)),
        ("preferredTime", .arr (times.map JsonVal.str))]

/-- The `Add Preference` button handler (Faculty Preferences page).
`faculty` is the selectbox value (empty when no faculty is available);
`selDays`/`selTimes` are the multiselect states over the fixed option lists.
An empty faculty or empty day selection shows a local error and sends
nothing; otherwise the payload is echoed and posted. -/
def addPreferenceClick (faculty : String) (selDays selTimes : String → Bool)
    (send_post : String → JsonVal → HttpResponse) : List Step :=
  let preferred_days := multiselect weekdayOptions selDays
  let preferred_times := multiselect periodOptions selTimes
  if faculty == "" then
    [.ui (.error "Please select a faculty member.")]
  else if preferred_days.isEmpty then
    [.ui (.error "Please select at least one preferred day.")]
  else
    let payload := preferencePayload faculty preferred_days preferred_times
    let resp := send_post "/api/faculty/preferences" payload
    [.ui (.write "Sending payload:" payload),
     .post "/api/faculty/preferences" payload] ++
    (if resp.status_code == 200 then
      [.ui (.success "Faculty preference added successfully!")]
     else
      [.ui (.error ("Failed to add preference: " ++ resp.text))])

/-- Modelled from the spec: a stored faculty preference
`{facultyName, preferredDays, preferredTimes}` (spec section 3). The backend
holding these is not in the repository. -/
structure FacultyPreference where
  facultyName : String
  preferredDays : List String
  preferredTimes : List String
deriving DecidableEq

/-- Modelled from the spec: the generation request
`{department, semester, subjects, maxSessionsPerDay, desiredFreePeriods}`
(spec section 4.1). -/
structure GenerateRequest where
  department : String
  semester : String
  subjects : List Subject
  maxSessionsPerDay : Nat
  desiredFreePeriods : Nat
deriving DecidableEq

/-- Modelled from the spec: a session assignment
`{subjectCode, facultyName, slot}` with the slot split into day and period
indices (spec section 3). -/
structure Session where
  subjectCode : String
  facultyName : String
  day : Nat
  period : Nat
deriving DecidableEq

/-- Modelled from the spec: a generated timetable
`{department, semester, sessions}` (spec section 3); the `generatedAt`
timestamp is external wall-clock data and not part of the engine's
input/output function. -/
structure Timetable where
  department : String
  semester : String
  sessions : List Session
deriving DecidableEq

/-- Modelled from the spec: the engine's error taxonomy relevant to
generation (spec section 7): `InvalidRequest` for structurally bad input,
`Infeasible` with the placed sessions and the codes of subjects that could
not be fully placed. -/
inductive GenError where
  | invalidRequest (msg : String)
  | infeasible (placed : List Session) (unplaced : List String)
deriving DecidableEq

/-- The reference grid has five days (spec section 3). -/
def numDays : Nat := 5

/-- The reference grid has five periods per day (spec section 6). -/
def numPeriods : Nat := 5

/-- All (day, period) slots in chronological order. -/
def allSlots : List (Nat × Nat) :=
  (List.range (numDays * numPeriods)).map (fun i => (i / numPeriods, i % numPeriods))

/-- The full English name of a day index (spec section 6). -/
def dayName : Nat → String
  | 0 => "Monday"
  | 1 => "Tuesday"
  | 2 => "Wednesday"
  | 3 => "Thursday"
  | _ => "Friday"

/-- The literal clock range of a period index (spec section 6). -/
def periodName (p : Nat) : String :=
  periodOptions.getD p ""

/-- Modelled from the spec: how many of a faculty member's stored
preferences match a slot — preferences for the same faculty are merged
(spec section 3), day and time matches each count. -/
def prefScore (prefs : List FacultyPreference) (fac : String)
    (day period : Nat) : Nat :=
  (prefs.filter (fun pr => pr.facultyName == fac)).foldl
    (fun acc pr =>
      acc + (if pr.preferredDays.contains (dayName day) then 1 else 0)
          + (if pr.preferredTimes.contains (periodName period) then 1 else 0)) 0

/-- A faculty member already teaches in the given slot. -/
def facultyBusy (sessions : List Session) (fac : String) (day period : Nat) : Bool :=
  sessions.any (fun s => s.facultyName == fac && s.day == day && s.period == period)

/-- A subject is already scheduled in the given slot. -/
def subjectAt (sessions : List Session) (code : String) (day period : Nat) : Bool :=
  sessions.any (fun s => s.subjectCode == code && s.day == day && s.period == period)

/-- How many sessions of a subject are already scheduled on a day. -/
def subjectDayCount (sessions : List Session) (code : String) (day : Nat) : Nat :=
  (sessions.filter (fun s => s.subjectCode == code && s.day == day)).length

/-- The hard no-double-booking conditions for one slot (spec section 3). -/
def slotOpen (sessions : List Session) (s : Subject) (day period : Nat) : Bool :=
  !facultyBusy sessions s.faculty day period && !subjectAt sessions s.code day period

/-- All slots where one more single session of the subject may go:
open and under the per-day cap. -/
def feasibleSingle (sessions : List Session) (maxPerDay : Nat) (s : Subject) :
    List (Nat × Nat) :=
  allSlots.filter (fun dp =>
    slotOpen sessions s dp.1 dp.2 && subjectDayCount sessions s.code dp.1 < maxPerDay)

/-- All slots starting a contiguous double period where a lab block of the
subject may go (spec section 3: a lab block is two contiguous periods). -/
def feasibleLab (sessions : List Session) (maxPerDay : Nat) (s : Subject) :
    List (Nat × Nat) :=
  allSlots.filter (fun dp =>
    dp.2 + 1 < numPeriods && slotOpen sessions s dp.1 dp.2 &&
    slotOpen sessions s dp.1 (dp.2 + 1) &&
    subjectDayCount sessions s.code dp.1 + 2 ≤ maxPerDay)

/-- Modelled from the spec: the candidate-slot ranking key of section 4.2 —
(a) preference match, higher better; (b) existing per-day load of the
subject, lower better; (c) chronological order as the final tie-break,
realised by scanning slots chronologically and replacing only on a strictly
better key. -/
def slotRank (prefs : List FacultyPreference) (sessions : List Session)
    (s : Subject) (dp : Nat × Nat) : Nat × Nat :=
  (prefScore prefs s.faculty dp.1 dp.2, subjectDayCount sessions s.code dp.1)

/-- Key comparison for `pickSlot`: first component descending, second
ascending. -/
def betterRank (a b : Nat × Nat) : Bool :=
  b.1 < a.1 || (a.1 == b.1 && a.2 < b.2)

/-- Choose the best-ranked candidate, keeping the chronologically earlier
slot on ties. -/
def pickSlot (rank : Nat × Nat → Nat × Nat) (cands : List (Nat × Nat)) :
    Option (Nat × Nat) :=
  cands.foldl
    (fun best c =>
      match best with
      | none => some c
      | some b => if betterRank (rank c) (rank b) then some c else some b)
    none

/-- Place `n` single sessions of a subject, one at a time, each into the
best-ranked feasible slot; fails when no feasible slot remains. -/
def placeSingles (prefs : List FacultyPreference) (maxPerDay : Nat)
    (s : Subject) : Nat → List Session → Option (List Session)
  | 0, sessions => some sessions
  | n + 1, sessions =>
    match pickSlot (slotRank prefs sessions s) (feasibleSingle sessions maxPerDay s) with
    | none => none
    | some dp =>
      placeSingles prefs maxPerDay s n
        (sessions ++ [⟨s.code, s.faculty, dp.1, dp.2⟩])

/-- Modelled from the spec: place one subject's weekly hours — a
lab-required subject first gets one contiguous double block, the remaining
hours go in as singles (spec sections 3 and 4.2). -/
def placeSubject (prefs : List FacultyPreference) (maxPerDay : Nat)
    (s : Subject) (sessions : List Session) : Option (List Session) :=
  if s.labRequired && 2 ≤ s.hoursPerWeek then
    match pickSlot (slotRank prefs sessions s) (feasibleLab sessions maxPerDay s) with
    | none => none
    | some dp =>
      placeSingles prefs maxPerDay s (s.hoursPerWeek - 2)
        (sessions ++ [⟨s.code, s.faculty, dp.1, dp.2⟩,
                      ⟨s.code, s.faculty, dp.1, dp.2 + 1⟩])
  else
    placeSingles prefs maxPerDay s s.hoursPerWeek sessions

/-- Modelled from the spec: the subject processing order of section 4.2 —
lab-required first, then larger `hoursPerWeek`, then subject code ascending,
a fixed deterministic total order. -/
def subjBefore (a b : Subject) : Bool :=
  if a.labRequired != b.labRequired then a.labRequired
  else if a.hoursPerWeek != b.hoursPerWeek then decide (b.hoursPerWeek < a.hoursPerWeek)
  else decide (a.code < b.code)

/-- Insertion step of the deterministic insertion sort over `subjBefore`. -/
def insertSubj (a : Subject) : List Subject → List Subject
  | [] => [a]
  | b :: rest => if subjBefore a b then a :: b :: rest else b :: insertSubj a rest

/-- Deterministic insertion sort of the subjects by `subjBefore`. -/
def sortSubjects : List Subject → List Subject
  | [] => []
  | a :: rest => insertSubj a (sortSubjects rest)

/-- Place every subject in order; subjects that cannot be fully placed are
collected as unplaced (spec section 4.2: the engine reports which subjects
could not be placed, never silently dropping them). -/
def placeAll (prefs : List FacultyPreference) (maxPerDay : Nat) :
    List Subject → List Session → List Session × List String
  | [], sessions => (sessions, [])
  | s :: rest, sessions =>
    match placeSubject prefs maxPerDay s sessions with
    | some sessions2 => placeAll prefs maxPerDay rest sessions2
    | none =>
      let r := placeAll prefs maxPerDay rest sessions
      (r.1, s.code :: r.2)

/-- Modelled from the spec: the timetable-generation engine behind
`POST /api/timetable/generate`, whose source is not in the repository (only
the front-end caller is). Validation per section 4.1 (`InvalidRequest` on
non-positive hours or hours exceeding `maxSessionsPerDay × numDays`), then
a deterministic greedy constraint search per section 4.2 with the fixed
subject ordering and slot ranking above and no randomized choices; failure
to place is reported as `Infeasible` with the partial assignment. -/
def generate (req : GenerateRequest) (prefs : List FacultyPreference) :
    Except GenError Timetable :=
  if req.subjects.any (fun s => s.hoursPerWeek == 0) then
    .error (.invalidRequest "hoursPerWeek must be positive")
  else if req.subjects.any (fun s => req.maxSessionsPerDay * numDays < s.hoursPerWeek) then
    .error (.invalidRequest "required hours exceed grid capacity")
  else
    let r := placeAll prefs req.maxSessionsPerDay (sortSubjects req.subjects) []
    if r.2.isEmpty then .ok ⟨req.department, req.semester, r.1⟩
    else .error (.infeasible r.1 r.2)

/-- Byte serialization of one session. -/
def sessionBytes (s : Session) : String :=
  s.subjectCode ++ "," ++ s.facultyName ++ "," ++ toString s.day ++ "," ++
    toString s.period

/-- Byte serialization of a timetable, for the byte-identity statement of
the determinism property. -/
def timetableBytes (t : Timetable) : String :=
  t.department ++ ";" ++ t.semester ++ ";" ++
    String.intercalate "|" (t.sessions.map sessionBytes)

/-- The byte-level observable outcome of one generation run. -/
def generateBytes (req : GenerateRequest) (prefs : List FacultyPreference) :
    String :=
  match generate req prefs with
  | .ok t => timetableBytes t
  | .error (.invalidRequest m) => "InvalidRequest:" ++ m
  | .error (.infeasible _ un) => "Infeasible:" ++ String.intercalate "," un

/-- Insertion step of the string sort modelling Python's `sorted`. -/
def insertStr (a : String) : List String → List String
  | [] => [a]
  | b :: rest => if a < b then a :: b :: rest else b :: insertStr a rest

/-- Python's `sorted` on a list of strings (insertion sort by `<`). -/
def sortStrings : List String → List String
  | [] => []
  | a :: rest => insertStr a (sortStrings rest)

/-- The faculty-list fetch rendered at the top of the Faculty Preferences
page, before the Add Preference button: `faculty_list = []`, then a GET of
/api/subjects whose 200 response is parsed (`parse` models
`response.json()`) into `sorted(set(s['faculty'] ...))`. There is no else
branch: a non-200 response silently leaves the list empty, with no UI
event. Returns the effect trace and the resulting faculty list. -/
def facultyListFetch (parse : String → List Subject)
    (send_get : String → HttpResponse) : List Step × List String :=
  let resp := send_get "/api/subjects"
  if resp.status_code == 200 then
    ([.get "/api/subjects"],
     sortStrings ((parse resp.content).map Subject.faculty).dedup)
  else
    ([.get "/api/subjects"], [])

/-- The dashboard metrics block at the top of the Timetable Management
page: three backend GETs whose parsed bodies (`parseSubjects` and
`parsePrefCount` model `response.json()`) are rendered with `st.metric` —
the status codes are never consulted and there is no error path. -/
def dashboardMetrics (parseSubjects : String → List Subject)
    (parsePrefCount : String → Nat)
    (send_get : String → HttpResponse) : List Step :=
  [.get "/api/subjects",
   .ui (.metric "Total Subjects"
     (parseSubjects (send_get "/api/subjects").content).length),
   .get "/api/subjects",
   .ui (.metric "Total Faculty"
     ((parseSubjects (send_get "/api/subjects").content).map
       Subject.faculty).dedup.length),
   .get "/api/faculty/preferences",
   .ui (.metric "Faculty Preferences Set"
     (parsePrefCount (send_get "/api/faculty/preferences").content))]

/-- The concrete generation scenario of spec section 8: CS101 with three
weekly hours and no lab, CS102 with four weekly hours and a lab, a 5 × 5
grid and at most two sessions per day. -/
def reqScenario : GenerateRequest :=
  ⟨"CSE", "5",
   [⟨"Programming", "CS101", "FacA", "FacB", 3, false, "CSE", true⟩,
    ⟨"DataStructures", "CS102", "FacC", "FacD", 4, true, "CSE", true⟩],
   2, 9⟩

example : pyLower "CSV" = "csv" := by decide
example : pyLower "Excel" = "excel" := by decide
example : check_password "admin" "timetable123" = true := by decide
example :
    errorsOf (generateTimetableClick [] (fun _ => false) "" "" 2 9
      (fun _ _ => ⟨200, "", ""⟩)) = ["Please select at least one subject."] := by
  decide

theorem postsOf_append (a b : List Step) :
    postsOf (a ++ b) = postsOf a ++ postsOf b := by
  induction a with
  | nil => rfl
  | cons s rest ih => cases s <;> simp [postsOf, ih]

theorem getsOf_append (a b : List Step) :
    getsOf (a ++ b) = getsOf a ++ getsOf b := by
  induction a with
  | nil => rfl
  | cons s rest ih => cases s <;> simp [getsOf, ih]

theorem errorsOf_append (a b : List Step) :
    errorsOf (a ++ b) = errorsOf a ++ errorsOf b := by
  induction a with
  | nil => rfl
  | cons s rest ih =>
    cases s with
    | ui e => cases e <;> simp [errorsOf, ih]
    | get e => simp [errorsOf, ih]
    | post e p => simp [errorsOf, ih]

theorem successSignalsOf_append (a b : List Step) :
    successSignalsOf (a ++ b) = successSignalsOf a ++ successSignalsOf b := by
  induction a with
  | nil => rfl
  | cons s rest ih =>
    cases s with
    | ui e => cases e <;> simp [successSignalsOf, ih]
    | get e => simp [successSignalsOf, ih]
    | post e p => simp [successSignalsOf, ih]

theorem downloadsOf_append (a b : List Step) :
    downloadsOf (a ++ b) = downloadsOf a ++ downloadsOf b := by
  induction a with
  | nil => rfl
  | cons s rest ih =>
    cases s with
    | ui e => cases e <;> simp [downloadsOf, ih]
    | get e => simp [downloadsOf, ih]
    | post e p => simp [downloadsOf, ih]

theorem postsOf_ui_map (l : List UiEvent) :
    postsOf (l.map Step.ui) = [] := by
  induction l with
  | nil => rfl
  | cons e rest ih => simp [postsOf, ih]

/-- The engine succeeds on the scenario of spec section 8. -/
theorem generate_scenario_ok : ∃ t, generate reqScenario [] = .ok t :=
  ⟨_, rfl⟩

/-- C8: `check_password` is a hardcoded credential check — it returns true
for exactly the username "admin" paired with the password "timetable123",
for all input strings, consulting nothing else. -/
theorem check_password_spec (username password : String) :
    check_password username password = true ↔
      username = "admin" ∧ password = "timetable123" := by
  simp [check_password]

/-- Witness for C8 at the hardcoded credentials. -/
theorem check_password_spec_witness :
    check_password "admin" "timetable123" = true :=
  (check_password_spec "admin" "timetable123").mpr ⟨rfl, rfl⟩

/-- C9: timetable generation is a deterministic function of the
(subjects-and-request, preferences) input tuple — two runs on identical
inputs produce byte-identical serialized outcomes. -/
theorem generate_deterministic (req1 req2 : GenerateRequest)
    (prefs1 prefs2 : List FacultyPreference)
    (hreq : req1 = req2) (hprefs : prefs1 = prefs2) :
    generateBytes req1 prefs1 = generateBytes req2 prefs2 := by
  rw [hreq, hprefs]

/-- Witness for C9: two runs on the section-8 scenario. -/
theorem generate_deterministic_witness :
    generateBytes reqScenario [] = generateBytes reqScenario [] :=
  generate_deterministic reqScenario reqScenario [] [] rfl rfl

/-- C1 counterexample: the front-end is not pure glue — a Generate
Timetable click with an empty selection performs local validation (a local
error, no forwarding to the backend), and the Login button performs a state
transition guarded by a local credential check rather than a backend call. -/
theorem frontend_pure_glue_cex :
    postsOf (generateTimetableClick [] (fun _ => false) "" "" 2 9
      (fun _ _ => ⟨200, "", ""⟩)) = [] ∧
    errorsOf (generateTimetableClick [] (fun _ => false) "" "" 2 9
      (fun _ _ => ⟨200, "", ""⟩)) = ["Please select at least one subject."] ∧
    (loginClick false "admin" "timetable123").1 = true ∧
    (loginClick false "wrong" "wrong").1 = false :=
  ⟨rfl, rfl, rfl, rfl⟩

/-- C2: every HTTP request a Generate Timetable click produces is a POST to
/api/timetable/generate whose JSON body has exactly the fields department,
semester, subjects (a list of subject objects drawn from the fetched
subjects), maxSessionsPerDay and desiredFreePeriods, with those names. -/
theorem generate_request_fields (subjects : List Subject) (sel : String → Bool)
    (department semester : String) (mRaw fRaw : Nat)
    (send : String → JsonVal → HttpResponse) (ep : String) (pl : JsonVal)
    (hmem : (ep, pl) ∈ postsOf
      (generateTimetableClick subjects sel department semester mRaw fRaw send)) :
    ep = "/api/timetable/generate" ∧
    pl.keys = ["department", "semester", "subjects",
               "maxSessionsPerDay", "desiredFreePeriods"] ∧
    ∃ details : List Subject,
      pl.lookup "subjects" = some (.arr (details.map subjectJson)) ∧
      ∀ d ∈ details, d ∈ subjects := by
  simp only [generateTimetableClick] at hmem
  split at hmem
  · simp [postsOf] at hmem
  · split at hmem
    · simp [postsOf] at hmem
    · rw [postsOf_append] at hmem
      split at hmem <;>
        simp only [postsOf, postsOf_ui_map, show_notification, List.map_append,
          List.append_nil, List.map_cons, List.map_nil, List.mem_singleton] at hmem
      all_goals {
        rw [Prod.mk.injEq] at hmem
        obtain ⟨h1, h2⟩ := hmem
        subst h1; subst h2
        exact ⟨rfl, rfl, _, rfl, fun d hd => List.mem_of_mem_filter hd⟩
      }

/-- Witness for C2 at a concrete one-subject form state. -/
theorem generate_request_fields_witness :
    (("/api/timetable/generate",
      generatePayload "CSE" "5"
        [⟨"Programming", "CS101", "FacA", "FacB", 3, false, "CSE", true⟩] 2 9) ∈
      postsOf (generateTimetableClick
        [⟨"Programming", "CS101", "FacA", "FacB", 3, false, "CSE", true⟩]
        (fun _ => true) "CSE" "5" 2 9 (fun _ _ => ⟨200, "", ""⟩))) ∧
    (generatePayload "CSE" "5"
        [⟨"Programming", "CS101", "FacA", "FacB", 3, false, "CSE", true⟩] 2 9).keys =
      ["department", "semester", "subjects",
       "maxSessionsPerDay", "desiredFreePeriods"] := by
  have hmem : ("/api/timetable/generate",
      generatePayload "CSE" "5"
        [⟨"Programming", "CS101", "FacA", "FacB", 3, false, "CSE", true⟩] 2 9) ∈
      postsOf (generateTimetableClick
        [⟨"Programming", "CS101", "FacA", "FacB", 3, false, "CSE", true⟩]
        (fun _ => true) "CSE" "5" 2 9 (fun _ _ => ⟨200, "", ""⟩)) :=
    List.Mem.head _
  exact ⟨hmem,
    (generate_request_fields _ _ _ _ _ _ _ _ _ hmem).2.1⟩

/-- C10: a Generate Timetable click posts to the backend exactly when the
subject selection is non-empty and department and semester are non-empty;
when a precondition fails the handler emits only a local error and no
request. -/
theorem generate_preconditions (subjects : List Subject) (sel : String → Bool)
    (department semester : String) (mRaw fRaw : Nat)
    (send : String → JsonVal → HttpResponse) :
    (multiselect (subjects.map subjectLabel) sel = [] →
      generateTimetableClick subjects sel department semester mRaw fRaw send =
        [.ui (.error "Please select at least one subject.")]) ∧
    (multiselect (subjects.map subjectLabel) sel ≠ [] →
      (department = "" ∨ semester = "") →
      generateTimetableClick subjects sel department semester mRaw fRaw send =
        [.ui (.error "Department and Semester are required.")]) ∧
    (multiselect (subjects.map subjectLabel) sel ≠ [] →
      department ≠ "" → semester ≠ "" →
      ∃ pl, postsOf (generateTimetableClick subjects sel department semester
          mRaw fRaw send) = [("/api/timetable/generate", pl)]) := by
  refine ⟨?_, ?_, ?_⟩
  · intro h
    have hc : (multiselect (subjects.map subjectLabel) sel).isEmpty = true := by
      simp [h]
    simp only [generateTimetableClick, hc, if_true]
  · intro h1 h2
    have hc1 : (multiselect (subjects.map subjectLabel) sel).isEmpty = false := by
      simp [List.isEmpty_iff, h1]
    have hc2 : (department == "" || semester == "") = true := by
      rcases h2 with h | h <;> simp [h]
    simp only [generateTimetableClick, hc1, hc2, if_true, if_false,
      Bool.false_eq_true]
  · intro h1 h2 h3
    have hc1 : (multiselect (subjects.map subjectLabel) sel).isEmpty = false := by
      simp [List.isEmpty_iff, h1]
    have hc2 : (department == "" || semester == "") = false := by
      simp [h2, h3]
    refine ⟨generatePayload department semester
      (subjects.filter (fun s =>
        (multiselect (subjects.map subjectLabel) sel).contains (subjectLabel s)))
      (numberInput 1 10 mRaw) (numberInput 0 20 fRaw), ?_⟩
    simp only [generateTimetableClick, hc1, hc2, if_false, Bool.false_eq_true]
    rw [postsOf_append]
    split <;>
      simp [postsOf, postsOf_ui_map, show_notification]

/-- Witness for C10: the three branches at concrete form states. -/
theorem generate_preconditions_witness :
    generateTimetableClick [] (fun _ => false) "CSE" "5" 2 9
        (fun _ _ => ⟨200, "", ""⟩) =
      [.ui (.error "Please select at least one subject.")] ∧
    generateTimetableClick
        [⟨"Programming", "CS101", "FacA", "FacB", 3, false, "CSE", true⟩]
        (fun _ => true) "" "5" 2 9 (fun _ _ => ⟨200, "", ""⟩) =
      [.ui (.error "Department and Semester are required.")] ∧
    ∃ pl, postsOf (generateTimetableClick
        [⟨"Programming", "CS101", "FacA", "FacB", 3, false, "CSE", true⟩]
        (fun _ => true) "CSE" "5" 2 9 (fun _ _ => ⟨200, "", ""⟩)) =
      [("/api/timetable/generate", pl)] :=
  ⟨(generate_preconditions [] (fun _ => false) "CSE" "5" 2 9
      (fun _ _ => ⟨200, "", ""⟩)).1 rfl,
   (generate_preconditions
      [⟨"Programming", "CS101", "FacA", "FacB", 3, false, "CSE", true⟩]
      (fun _ => true) "" "5" 2 9 (fun _ _ => ⟨200, "", ""⟩)).2.1
      (by decide) (Or.inl rfl),
   (generate_preconditions
      [⟨"Programming", "CS101", "FacA", "FacB", 3, false, "CSE", true⟩]
      (fun _ => true) "CSE" "5" 2 9 (fun _ _ => ⟨200, "", ""⟩)).2.2
      (by decide) (by decide) (by decide)⟩

/-- C1 amended: the front-end is form-to-HTTP glue except for two local
mechanisms the code does contain — a login state machine over the session
boolean driven by the hardcoded credential check, and presence validation
guarding some submissions (shown here for the faculty-preference form): a
submission is forwarded exactly when the locally checked fields are
present, otherwise only a local error is shown; the forwarded values
themselves are not validated further. -/
theorem frontend_local_checks (logged_in : Bool)
    (username password faculty : String) (selDays selTimes : String → Bool)
    (send : String → JsonVal → HttpResponse) :
    (loginClick logged_in username password).1 =
      (check_password username password || logged_in) ∧
    logoutClick logged_in = false ∧
    (faculty ≠ "" → multiselect weekdayOptions selDays ≠ [] →
      ∃ pl, postsOf (addPreferenceClick faculty selDays selTimes send) =
        [("/api/faculty/preferences", pl)]) ∧
    ((faculty = "" ∨ multiselect weekdayOptions selDays = []) →
      postsOf (addPreferenceClick faculty selDays selTimes send) = [] ∧
      errorsOf (addPreferenceClick faculty selDays selTimes send) ≠ []) := by
  refine ⟨?_, rfl, ?_, ?_⟩
  · cases hcp : check_password username password <;> simp [loginClick, hcp]
  · intro hf hd
    have hc1 : (faculty == "") = false := by simp [hf]
    have hc2 : (multiselect weekdayOptions selDays).isEmpty = false := by
      simp [List.isEmpty_iff, hd]
    refine ⟨preferencePayload faculty (multiselect weekdayOptions selDays)
      (multiselect periodOptions selTimes), ?_⟩
    simp only [addPreferenceClick, hc1, hc2, if_false, Bool.false_eq_true]
    rw [postsOf_append]
    split <;> simp [postsOf]
  · intro h
    rcases h with h | h
    · subst h
      exact ⟨rfl, by simp [addPreferenceClick, errorsOf]⟩
    · have hc2 : (multiselect weekdayOptions selDays).isEmpty = true := by
        simp [h]
      by_cases hf : faculty = ""
      · subst hf
        exact ⟨rfl, by simp [addPreferenceClick, errorsOf]⟩
      · have hc1 : (faculty == "") = false := by simp [hf]
        constructor <;>
          simp [addPreferenceClick, hc1, hc2, postsOf, errorsOf]

/-- Witness for C1 (amended) at concrete form states: a present faculty and
day selection is forwarded; an absent faculty yields a local error and no
request; the login transition follows the credential check. -/
theorem frontend_local_checks_witness :
    (∃ pl, postsOf (addPreferenceClick "FacA" (fun _ => true) (fun _ => true)
        (fun _ _ => ⟨200, "", ""⟩)) = [("/api/faculty/preferences", pl)]) ∧
    postsOf (addPreferenceClick "" (fun _ => true) (fun _ => true)
        (fun _ _ => ⟨200, "", ""⟩)) = [] ∧
    errorsOf (addPreferenceClick "" (fun _ => true) (fun _ => true)
        (fun _ _ => ⟨200, "", ""⟩)) ≠ [] ∧
    (loginClick false "admin" "pw").1 = (check_password "admin" "pw" || false) := by
  have h1 := (frontend_local_checks false "u" "p" "FacA" (fun _ => true)
    (fun _ => true) (fun _ _ => ⟨200, "", ""⟩)).2.2.1 (by decide) (by decide)
  have h2 := (frontend_local_checks false "u" "p" "" (fun _ => true)
    (fun _ => true) (fun _ _ => ⟨200, "", ""⟩)).2.2.2 (Or.inl rfl)
  have h3 := (frontend_local_checks false "admin" "pw" "x" (fun _ => true)
    (fun _ => true) (fun _ _ => ⟨200, "", ""⟩)).1
  exact ⟨h1, h2.1, h2.2, h3⟩

/-- C3 counterexample: at a concrete Add Subject submission the posted
payload carries faculty data under the keys "faculty" and
"alternateFaculty"; neither "facultyPrimary" nor "facultyAlternate" occurs
among its keys, and lookups of those names fail. -/
theorem subject_field_names_cex :
    postsOf (addSubjectClick "Programming" "CS101" "FacA" "FacB" 3 false "CSE"
        true (fun _ _ => ⟨200, "", ""⟩)) =
      [("/api/subjects",
        addSubjectPayload "Programming" "CS101" "FacA" "FacB" 3 false "CSE" true)] ∧
    (addSubjectPayload "Programming" "CS101" "FacA" "FacB" 3 false "CSE"
        true).keys =
      ["name", "code", "faculty", "alternateFaculty", "hoursPerWeek",
       "labRequired", "department", "available"] ∧
    "facultyPrimary" ∉ (addSubjectPayload "Programming" "CS101" "FacA" "FacB" 3
        false "CSE" true).keys ∧
    "facultyAlternate" ∉ (addSubjectPayload "Programming" "CS101" "FacA" "FacB"
        3 false "CSE" true).keys ∧
    (addSubjectPayload "Programming" "CS101" "FacA" "FacB" 3 false "CSE"
        true).lookup "facultyPrimary" = none ∧
    (addSubjectPayload "Programming" "CS101" "FacA" "FacB" 3 false "CSE"
        true).lookup "faculty" = some (.str "FacA") :=
  ⟨rfl, rfl, by decide, by decide, rfl, rfl⟩

/-- C3 amended: every add-subject submission posts its faculty data under
the field names "faculty" and "alternateFaculty" (not "facultyPrimary" and
"facultyAlternate" as the spec's data model names them), and subject
objects serialized for or read from the backend carry faculty data under
those same two names. -/
theorem subject_field_names (name code faculty alternate_faculty : String)
    (hoursRaw : Nat) (lab_required : Bool) (department : String)
    (available : Bool) (send : String → JsonVal → HttpResponse) :
    (∀ ep pl, (ep, pl) ∈ postsOf (addSubjectClick name code faculty
        alternate_faculty hoursRaw lab_required department available send) →
      ep = "/api/subjects" ∧
      pl.lookup "faculty" = some (.str faculty) ∧
      pl.lookup "alternateFaculty" = some (.str alternate_faculty) ∧
      pl.lookup "facultyPrimary" = none ∧
      pl.lookup "facultyAlternate" = none) ∧
    ∀ s : Subject,
      (subjectJson s).lookup "faculty" = some (.str s.faculty) ∧
      (subjectJson s).lookup "alternateFaculty" =
        some (.str s.alternateFaculty) := by
  constructor
  · intro ep pl hmem
    simp only [addSubjectClick] at hmem
    rw [postsOf_append] at hmem
    split at hmem <;>
      simp only [postsOf, List.append_nil, List.mem_singleton] at hmem <;>
      · rw [Prod.mk.injEq] at hmem
        obtain ⟨h1, h2⟩ := hmem
        subst h1; subst h2
        exact ⟨rfl, rfl, rfl, rfl, rfl⟩
  · intro s
    exact ⟨rfl, rfl⟩

/-- Witness for C3 (amended) at a concrete submission and subject. -/
theorem subject_field_names_witness :
    (addSubjectPayload "Programming" "CS101" "FacA" "FacB" 3 false "CSE"
        true).lookup "alternateFaculty" = some (.str "FacB") ∧
    (subjectJson ⟨"Programming", "CS101", "FacA", "FacB", 3, false, "CSE",
        true⟩).lookup "faculty" = some (.str "FacA") := by
  have hmem : ("/api/subjects",
      addSubjectPayload "Programming" "CS101" "FacA" "FacB" 3 false "CSE" true) ∈
      postsOf (addSubjectClick "Programming" "CS101" "FacA" "FacB" 3 false
        "CSE" true (fun _ _ => ⟨200, "", ""⟩)) :=
    List.Mem.head _
  have h := subject_field_names "Programming" "CS101" "FacA" "FacB" 3 false
    "CSE" true (fun _ _ => ⟨200, "", ""⟩)
  exact ⟨(h.1 _ _ hmem).2.2.1,
    (h.2 ⟨"Programming", "CS101", "FacA", "FacB", 3, false, "CSE", true⟩).1⟩

/-- C7: every payload the Add Subject form posts has hoursPerWeek a
positive integer — the widget clamps it into [1,40] — so a non-positive
hoursPerWeek never reaches the backend from this front-end. -/
theorem subject_hours_positive (name code faculty alternate_faculty : String)
    (hoursRaw : Nat) (lab_required : Bool) (department : String)
    (available : Bool) (send : String → JsonVal → HttpResponse) (ep : String)
    (pl : JsonVal)
    (hmem : (ep, pl) ∈ postsOf (addSubjectClick name code faculty
        alternate_faculty hoursRaw lab_required department available send)) :
    ep = "/api/subjects" ∧
    ∃ h, pl.lookup "hoursPerWeek" = some (.nat h) ∧ 1 ≤ h := by
  simp only [addSubjectClick] at hmem
  rw [postsOf_append] at hmem
  split at hmem <;>
    simp only [postsOf, List.append_nil, List.mem_singleton] at hmem <;>
    · rw [Prod.mk.injEq] at hmem
      obtain ⟨h1, h2⟩ := hmem
      subst h1; subst h2
      exact ⟨rfl, numberInput 1 40 hoursRaw, rfl, le_max_left 1 _⟩

/-- Witness for C7 at a concrete submission whose raw widget state is 0:
the clamped payload value is 1. -/
theorem subject_hours_positive_witness :
    ("/api/subjects",
      addSubjectPayload "Programming" "CS101" "FacA" "FacB"
        (numberInput 1 40 0) false "CSE" true) ∈
      postsOf (addSubjectClick "Programming" "CS101" "FacA" "FacB" 0 false
        "CSE" true (fun _ _ => ⟨200, "", ""⟩)) ∧
    ∃ h, (addSubjectPayload "Programming" "CS101" "FacA" "FacB"
        (numberInput 1 40 0) false "CSE" true).lookup "hoursPerWeek" =
      some (.nat h) ∧ 1 ≤ h := by
  have hmem : ("/api/subjects",
      addSubjectPayload "Programming" "CS101" "FacA" "FacB"
        (numberInput 1 40 0) false "CSE" true) ∈
      postsOf (addSubjectClick "Programming" "CS101" "FacA" "FacB" 0 false
        "CSE" true (fun _ _ => ⟨200, "", ""⟩)) :=
    List.Mem.head _
  exact ⟨hmem, (subject_hours_positive "Programming" "CS101" "FacA" "FacB" 0
    false "CSE" true (fun _ _ => ⟨200, "", ""⟩) _ _ hmem).2⟩

/-- C5: every faculty-preference submission that results in a request posts
to /api/faculty/preferences a body with exactly the fields faculty,
preferredDays and preferredTime, where each preferred day is one of the
five full English weekday names and each preferred time one of the five
fixed literal period ranges beginning with "8:45am - 9:30am". -/
theorem preference_request_shape (faculty : String)
    (selDays selTimes : String → Bool)
    (send : String → JsonVal → HttpResponse) (ep : String) (pl : JsonVal)
    (hmem : (ep, pl) ∈ postsOf
      (addPreferenceClick faculty selDays selTimes send)) :
    ep = "/api/faculty/preferences" ∧
    pl.keys = ["faculty", "preferredDays", "preferredTime"] ∧
    pl.lookup "faculty" = some (.str faculty) ∧
    (∃ ds : List String,
      pl.lookup "preferredDays" = some (.arr (ds.map JsonVal.str)) ∧
      ∀ d ∈ ds, d ∈ ["Monday", "Tuesday", "Wednesday", "Thursday", "Friday"]) ∧
    (∃ ts : List String,
      pl.lookup "preferredTime" = some (.arr (ts.map JsonVal.str)) ∧
      ∀ t ∈ ts, t ∈ ["8:45am - 9:30am", "9:30am - 10:15am",
        "10:15am - 11:00am", "11:30am - 12:15pm", "12:15pm - 1:00pm"]) := by
  simp only [addPreferenceClick] at hmem
  split at hmem
  · simp [postsOf] at hmem
  · split at hmem
    · simp [postsOf] at hmem
    · rw [postsOf_append] at hmem
      split at hmem <;>
        simp only [postsOf, List.append_nil, List.mem_singleton] at hmem <;>
        · rw [Prod.mk.injEq] at hmem
          obtain ⟨h1, h2⟩ := hmem
          subst h1; subst h2
          refine ⟨rfl, rfl, rfl, ⟨_, rfl, ?_⟩, ⟨_, rfl, ?_⟩⟩
          · intro d hd
            exact List.mem_of_mem_filter hd
          · intro t ht
            exact List.mem_of_mem_filter ht

/-- Witness for C5 at a concrete submission selecting Monday and no time. -/
theorem preference_request_shape_witness :
    ("/api/faculty/preferences",
      preferencePayload "FacA"
        (multiselect weekdayOptions (fun d => d == "Monday"))
        (multiselect periodOptions (fun _ => false))) ∈
      postsOf (addPreferenceClick "FacA" (fun d => d == "Monday")
        (fun _ => false) (fun _ _ => ⟨200, "", ""⟩)) ∧
    (preferencePayload "FacA"
        (multiselect weekdayOptions (fun d => d == "Monday"))
        (multiselect periodOptions (fun _ => false))).keys =
      ["faculty", "preferredDays", "preferredTime"] := by
  have hmem : ("/api/faculty/preferences",
      preferencePayload "FacA"
        (multiselect weekdayOptions (fun d => d == "Monday"))
        (multiselect periodOptions (fun _ => false))) ∈
      postsOf (addPreferenceClick "FacA" (fun d => d == "Monday")
        (fun _ => false) (fun _ _ => ⟨200, "", ""⟩)) :=
    List.Mem.head _
  exact ⟨hmem, (preference_request_shape "FacA" (fun d => d == "Monday")
    (fun _ => false) (fun _ _ => ⟨200, "", ""⟩) _ _ hmem).2.1⟩

/-- C6: a Download Timetable click GETs
/api/timetable/download/{lowercased format}, which for the selectbox
options CSV and Excel is the csv or excel endpoint, and on a 200 response
offers the response body unchanged as the file content. -/
theorem download_request_shape (format : String)
    (send_get : String → HttpResponse) (hf : format ∈ ["CSV", "Excel"]) :
    getsOf (downloadTimetableClick format send_get) =
      ["/api/timetable/download/" ++ pyLower format] ∧
    ("/api/timetable/download/" ++ pyLower format) ∈
      ["/api/timetable/download/csv", "/api/timetable/download/excel"] ∧
    ((send_get ("/api/timetable/download/" ++ pyLower format)).status_code =
        200 →
      downloadsOf (downloadTimetableClick format send_get) =
        [("timetable." ++ pyLower format,
          (send_get ("/api/timetable/download/" ++ pyLower format)).content)]) := by
  refine ⟨?_, ?_, ?_⟩
  · simp only [downloadTimetableClick]
    rw [getsOf_append]
    split <;> simp [getsOf]
  · simp only [List.mem_cons, List.mem_singleton, List.not_mem_nil,
      or_false] at hf
    rcases hf with h | h <;> subst h <;> decide
  · intro h200
    have hc : ((send_get ("/api/timetable/download/" ++ pyLower
        format)).status_code == 200) = true := by
      simp [h200]
    simp [downloadTimetableClick, hc, downloadsOf_append, downloadsOf]

/-- Witness for C6: downloading as CSV with a 200 backend response. -/
theorem download_request_shape_witness :
    getsOf (downloadTimetableClick "CSV" (fun _ => ⟨200, "", "BODY"⟩)) =
      ["/api/timetable/download/csv"] ∧
    downloadsOf (downloadTimetableClick "CSV" (fun _ => ⟨200, "", "BODY"⟩)) =
      [("timetable.csv", "BODY")] := by
  have h := download_request_shape "CSV" (fun _ => ⟨200, "", "BODY"⟩)
    (by decide)
  exact ⟨h.1.trans (by decide), (h.2.2 rfl).trans (by decide)⟩

/-- C4 counterexample: a failing download (status 500, body "boom") reports
only the fixed message "Failed to download timetable.", so the backend's
error body is not surfaced in it; and the faculty-list fetch of the
preferences page, on the same failing response, emits no UI event at all —
that failure is silently swallowed. -/
theorem error_body_surfaced_cex :
    errorsOf (downloadTimetableClick "CSV" (fun _ => ⟨500, "boom", ""⟩)) =
      ["Failed to download timetable."] ∧
    ¬ ("boom".toList <:+: "Failed to download timetable.".toList) ∧
    facultyListFetch (fun _ => []) (fun _ => ⟨500, "boom", ""⟩) =
      ([.get "/api/subjects"], []) ∧
    errorsOf (facultyListFetch (fun _ => [])
      (fun _ => ⟨500, "boom", ""⟩)).1 = [] :=
  ⟨rfl, by decide, rfl, rfl⟩

/-- C4 amended: the four button-backed operations (generate, add subject,
add preference, download) report a non-200 backing call synchronously with
a human-readable error and no success indication — generate, add-subject
and add-preference surface the backend's response body in the message,
while the download handler shows a fixed generic message without the body.
The page-render fetches, however, are not all reported: the faculty-list
fetch of the preferences page silently leaves the list empty on a non-200
with no UI event, and the dashboard metric fetches never consult the
status and emit no error or success signal — those failures are silently
swallowed. -/
theorem error_reporting (r : HttpResponse) (hr : r.status_code ≠ 200) :
    (∀ (subjects : List Subject) (sel : String → Bool)
        (department semester : String) (mRaw fRaw : Nat),
      multiselect (subjects.map subjectLabel) sel ≠ [] → department ≠ "" →
      semester ≠ "" →
      errorsOf (generateTimetableClick subjects sel department semester mRaw
          fRaw (fun _ _ => r)) = ["Failed to generate timetable: " ++ r.text] ∧
      successSignalsOf (generateTimetableClick subjects sel department
          semester mRaw fRaw (fun _ _ => r)) = []) ∧
    (∀ (name code faculty alternate_faculty : String) (hoursRaw : Nat)
        (lab_required : Bool) (department : String) (available : Bool),
      errorsOf (addSubjectClick name code faculty alternate_faculty hoursRaw
          lab_required department available (fun _ _ => r)) =
        ["Failed to add subject: " ++ r.text] ∧
      successSignalsOf (addSubjectClick name code faculty alternate_faculty
          hoursRaw lab_required department available (fun _ _ => r)) = []) ∧
    (∀ (faculty : String) (selDays selTimes : String → Bool), faculty ≠ "" →
      multiselect weekdayOptions selDays ≠ [] →
      errorsOf (addPreferenceClick faculty selDays selTimes (fun _ _ => r)) =
        ["Failed to add preference: " ++ r.text] ∧
      successSignalsOf (addPreferenceClick faculty selDays selTimes
          (fun _ _ => r)) = []) ∧
    (∀ format : String,
      errorsOf (downloadTimetableClick format (fun _ => r)) =
        ["Failed to download timetable."] ∧
      successSignalsOf (downloadTimetableClick format (fun _ => r)) = [] ∧
      downloadsOf (downloadTimetableClick format (fun _ => r)) = []) ∧
    (∀ parse : String → List Subject,
      facultyListFetch parse (fun _ => r) = ([.get "/api/subjects"], [])) ∧
    (∀ (parseSubjects : String → List Subject)
        (parsePrefCount : String → Nat),
      errorsOf (dashboardMetrics parseSubjects parsePrefCount
        (fun _ => r)) = [] ∧
      successSignalsOf (dashboardMetrics parseSubjects parsePrefCount
        (fun _ => r)) = []) := by
  have hc : (r.status_code == 200) = false := by simp [hr]
  refine ⟨?_, ?_, ?_, ?_, ?_, ?_⟩
  · intro subjects sel department semester mRaw fRaw h1 h2 h3
    have hc1 : (multiselect (subjects.map subjectLabel) sel).isEmpty = false := by
      simp [List.isEmpty_iff, h1]
    have hc2 : (department == "" || semester == "") = false := by
      simp [h2, h3]
    constructor <;>
      simp [generateTimetableClick, hc1, hc2, hc, errorsOf_append, errorsOf,
        successSignalsOf_append, successSignalsOf]
  · intro name code faculty alternate_faculty hoursRaw lab_required
      department available
    constructor <;>
      simp [addSubjectClick, hc, errorsOf_append, errorsOf,
        successSignalsOf_append, successSignalsOf]
  · intro faculty selDays selTimes hf hd
    have hc1 : (faculty == "") = false := by simp [hf]
    have hc2 : (multiselect weekdayOptions selDays).isEmpty = false := by
      simp [List.isEmpty_iff, hd]
    constructor <;>
      simp [addPreferenceClick, hc1, hc2, hc, errorsOf_append, errorsOf,
        successSignalsOf_append, successSignalsOf]
  · intro format
    refine ⟨?_, ?_, ?_⟩ <;>
      simp [downloadTimetableClick, hc, errorsOf_append, errorsOf,
        successSignalsOf_append, successSignalsOf, downloadsOf_append,
        downloadsOf]
  · intro parse
    simp [facultyListFetch, hc]
  · intro parseSubjects parsePrefCount
    exact ⟨rfl, rfl⟩

/-- Witness for C4 (amended) at a concrete 500 response with body "boom":
the add-subject and download handlers report, the faculty-list fetch stays
silent, and the metrics block shows no error or success signal. -/
theorem error_reporting_witness :
    errorsOf (addSubjectClick "Programming" "CS101" "FacA" "FacB" 3 false
        "CSE" true (fun _ _ => ⟨500, "boom", ""⟩)) =
      ["Failed to add subject: " ++ ("boom" : String)] ∧
    errorsOf (downloadTimetableClick "CSV" (fun _ => ⟨500, "boom", ""⟩)) =
      ["Failed to download timetable."] ∧
    successSignalsOf (downloadTimetableClick "CSV"
        (fun _ => ⟨500, "boom", ""⟩)) = [] ∧
    facultyListFetch (fun _ => []) (fun _ => ⟨500, "boom", ""⟩) =
      ([.get "/api/subjects"], []) ∧
    errorsOf (dashboardMetrics (fun _ => []) (fun _ => 0)
      (fun _ => ⟨500, "boom", ""⟩)) = [] := by
  have h := error_reporting ⟨500, "boom", ""⟩ (by decide)
  exact ⟨(h.2.1 "Programming" "CS101" "FacA" "FacB" 3 false "CSE" true).1,
    (h.2.2.2.1 "CSV").1, (h.2.2.2.1 "CSV").2.1,
    h.2.2.2.2.1 (fun _ => []),
    (h.2.2.2.2.2 (fun _ => []) (fun _ => 0)).1⟩
